import Mathlib

/-!
Verification of the organisations/locations service.

The repository layer (`app/infrastructure/organisations_repository.py`) and the
API routes (`app/api/routes/organisations.py`) are embedded shallowly: the
persistence store becomes an explicit `DB` state (a list of rows per table plus
the autoincrement counters), a SQLAlchemy `select ... where ...` chain becomes a
`Query` value holding its filter list, and each repository or route function
becomes a Lean function over `DB`.  Coordinates (`float` columns used only for
order comparisons, never arithmetic) are embedded as `ℚ`; integer ids as `ℤ`.
Repository functions live in the `organisations_repository` namespace,
mirroring the Python module; the route functions live at top level.
-/

/-- Organisation row.  Modelled from the spec: `app/models.py` is not in the
source tree; §3 gives `id` (integer, server-generated, primary key) and
`name` (string, required). -/
structure Organisation where
  id : Int
  name : String
deriving DecidableEq

/-- Location row.  Modelled from the spec: `app/models.py` is not in the source
tree; §3 gives `id` (integer, server-generated), `organisation_id` (integer),
`location_name` (string), `longitude` and `latitude` (floating point). -/
structure Location where
  id : Int
  organisation_id : Int
  location_name : String
  longitude : ℚ
  latitude : ℚ
deriving DecidableEq

/-- The three-field dictionary returned by
`get_locations_by_organisation_id`: exactly `location_name`,
`location_longitude`, `location_latitude` and nothing else. -/
structure LocationOut where
  location_name : String
  location_longitude : ℚ
  location_latitude : ℚ
deriving DecidableEq

/-- The persistence store: the `organisation` and `location` tables plus the
server-generated autoincrement counters.  Modelled from the spec: §3 calls the
ids server-generated and unique; we model the store issuing consecutive ids. -/
structure DB where
  organisations : List Organisation
  locations : List Location
  nextOrganisationId : Int
  nextLocationId : Int
deriving DecidableEq

/-- The store provisioned by the migration tool, before any request. -/
def emptyDB : DB := ⟨[], [], 1, 1⟩

/-- A `select(Location...)` statement under construction: the conjunction of
its accumulated `where` clauses. -/
structure Query where
  filters : List (Location → Bool)

/-- `query.where(p1, p2, ...)`: conjoin further clauses. -/
def Query.whereAll (q : Query) (ps : List (Location → Bool)) : Query :=
  ⟨q.filters ++ ps⟩

/-- `session.exec(query).all()`: the rows of the `location` table satisfying
every accumulated clause, in table order. -/
def Query.run (q : Query) (db : DB) : List Location :=
  db.locations.filter (fun l => q.filters.all (fun p => p l))

namespace organisations_repository

/-- `create_organisation` (repository): insert a row with the given name,
commit, refresh (picking up the generated id), return the entity. -/
def create_organisation (name : String) (db : DB) : DB × Organisation :=
  let organisation : Organisation := ⟨db.nextOrganisationId, name⟩
  ({ db with
      organisations := db.organisations ++ [organisation]
      nextOrganisationId := db.nextOrganisationId + 1 },
   organisation)

/-- `get_organisations` (repository): all organisation rows. -/
def get_organisations (db : DB) : List Organisation :=
  db.organisations

/-- `get_organisation_by_id` (repository): `session.get(Organisation, id)`,
point lookup by primary key, absent when no row matches. -/
def get_organisation_by_id (organisation_id : Int) (db : DB) : Option Organisation :=
  db.organisations.find? (fun o => o.id == organisation_id)

/-- `create_location` (repository): insert a row linked to `organisation_id`,
commit, refresh, return the entity.  No existence check on the organisation. -/
def create_location (organisation_id : Int) (location_name : String)
    (longitude latitude : ℚ) (db : DB) : DB × Location :=
  let location : Location :=
    ⟨db.nextLocationId, organisation_id, location_name, longitude, latitude⟩
  ({ db with
      locations := db.locations ++ [location]
      nextLocationId := db.nextLocationId + 1 },
   location)

/-- The query built by `get_locations_by_organisation_id`: a `where` on the
organisation id, then — only when a bounding box is supplied (`if
bounding_box:`; a 4-tuple is always truthy) — four further inequalities,
destructured as `min_lat, min_lon, max_lat, max_lon`. -/
def locationsQuery (organisation_id : Int)
    (bounding_box : Option (ℚ × ℚ × ℚ × ℚ)) : Query :=
  let query := Query.whereAll ⟨[]⟩ [fun l => l.organisation_id == organisation_id]
  match bounding_box with
  | some (min_lat, min_lon, max_lat, max_lon) =>
      query.whereAll
        [fun l => decide (l.latitude ≥ min_lat),
         fun l => decide (l.latitude ≤ max_lat),
         fun l => decide (l.longitude ≥ min_lon),
         fun l => decide (l.longitude ≤ max_lon)]
  | none => query

/-- `get_locations_by_organisation_id` (repository): run the query and project
each row to the three-field dictionary. -/
def get_locations_by_organisation_id (organisation_id : Int)
    (bounding_box : Option (ℚ × ℚ × ℚ × ℚ)) (db : DB) : List LocationOut :=
  ((locationsQuery organisation_id bounding_box).run db).map
    (fun location =>
      { location_name := location.location_name
        location_longitude := location.longitude
        location_latitude := location.latitude })

end organisations_repository

/-- The error responses the routes can produce: the explicit 404 raised by
`get_organisation`, and the 422 produced by the framework when a query
parameter fails validation against its annotation. -/
inductive ApiError where
  | notFound (detail : String)
  | validation
deriving DecidableEq

/-- `create_organisation` route (`POST /create`): direct pass-through to the
repository. -/
def create_organisation_route (name : String) (db : DB) : DB × Organisation :=
  organisations_repository.create_organisation name db

/-- `get_organisations` route (`GET /`): direct pass-through. -/
def get_organisations_route (db : DB) : List Organisation :=
  organisations_repository.get_organisations db

/-- `get_organisation` route (`GET` on a path carrying `organisation_id`):
404 with detail `Organisation not found` when the lookup is absent, otherwise
the entity. -/
def get_organisation (organisation_id : Int) (db : DB) :
    Except ApiError Organisation :=
  match organisations_repository.get_organisation_by_id organisation_id db with
  | none => .error (.notFound "Organisation not found")
  | some organisation => .ok organisation

/-- `create_location` route (`POST /create/locations`): direct pass-through;
the route has no error path of its own. -/
def create_location_route (organisation_id : Int) (location_name : String)
    (longitude latitude : ℚ) (db : DB) : DB × Location :=
  organisations_repository.create_location organisation_id location_name
    longitude latitude db

/-- Coercion of one numeric query-parameter component to `int`, as the
framework performs it for the route annotation `Tuple[int, int, int, int]`:
an integral value is accepted, a value with a fractional part is rejected. -/
def coerceQueryInt (q : ℚ) : Option Int :=
  if q.den = 1 then some q.num else none

/-- Validation of the whole `bounding_box` query parameter against the
annotation `Optional[Tuple[int, int, int, int]]`. -/
def parseBoundingBox (t : ℚ × ℚ × ℚ × ℚ) : Option (Int × Int × Int × Int) :=
  match coerceQueryInt t.1, coerceQueryInt t.2.1,
        coerceQueryInt t.2.2.1, coerceQueryInt t.2.2.2 with
  | some a, some b, some c, some d => some (a, b, c, d)
  | _, _, _, _ => none

/-- `get_organisation_locations` route (`GET` on the `locations` sub-path of
an organisation id): the supplied bounding box is first validated against the
annotation `Optional[Tuple[int, int, int, int]]` (422 on failure), then passed
through to the repository. -/
def get_organisation_locations (organisation_id : Int)
    (bounding_box : Option (ℚ × ℚ × ℚ × ℚ)) (db : DB) :
    Except ApiError (List LocationOut) :=
  match bounding_box with
  | none =>
      .ok (organisations_repository.get_locations_by_organisation_id
            organisation_id none db)
  | some t =>
      match parseBoundingBox t with
      | none => .error .validation
      | some (a, b, c, d) =>
          .ok (organisations_repository.get_locations_by_organisation_id
                organisation_id (some ((a : ℚ), (b : ℚ), (c : ℚ), (d : ℚ))) db)

/-- Whether the framework accepts the request's `bounding_box` parameter:
absent, or present with all four components validating as integers. -/
def boundingBoxAccepted : Option (ℚ × ℚ × ℚ × ℚ) → Bool
  | none => true
  | some t => (parseBoundingBox t).isSome

/-- The non-integer query value 10.5, written as the reduced rational 21/2
(built by its constructor so that it evaluates by kernel reduction). -/
def tenPointFive : ℚ := ⟨21, 2, by norm_num, by norm_num⟩

/-- A finite sequence of create-organisation requests, applied in order. -/
def createOrganisations (names : List String) (db : DB) : DB :=
  names.foldl (fun s n => (organisations_repository.create_organisation n s).1) db

/-- The organisation rows the store generates for consecutive creates starting
at id `i`. -/
def orgsFrom : Int → List String → List Organisation
  | _, [] => []
  | i, n :: ns => ⟨i, n⟩ :: orgsFrom (i + 1) ns

deriving instance DecidableEq for Except

namespace organisations_repository

/-- Running the no-bounding-box query keeps exactly the rows of the given
organisation. -/
lemma locationsQuery_none_run (oid : Int) (db : DB) :
    (locationsQuery oid none).run db =
      db.locations.filter (fun l => l.organisation_id == oid) := by
  unfold locationsQuery Query.whereAll Query.run
  apply List.filter_congr
  intro l _
  simp

/-- Running the bounding-box query keeps exactly the rows of the given
organisation whose coordinates satisfy the four inclusive inequalities. -/
lemma locationsQuery_some_run (oid : Int) (min_lat min_lon max_lat max_lon : ℚ)
    (db : DB) :
    (locationsQuery oid (some (min_lat, min_lon, max_lat, max_lon))).run db =
      db.locations.filter (fun l =>
        l.organisation_id == oid
          && decide (min_lat ≤ l.latitude) && decide (l.latitude ≤ max_lat)
          && decide (min_lon ≤ l.longitude) && decide (l.longitude ≤ max_lon)) := by
  unfold locationsQuery Query.whereAll Query.run
  apply List.filter_congr
  intro l _
  simp [List.all_cons, ge_iff_le, Bool.and_assoc]

end organisations_repository

/-- Claim C1: with a bounding box `(min_lat, min_lon, max_lat, max_lon)`,
`get_locations_by_organisation_id` returns exactly the projections of the
stored locations of the organisation whose latitude lies in
`[min_lat, max_lat]` and whose longitude lies in `[min_lon, max_lon]`, all
four bounds inclusive. -/
theorem get_locations_bounding_box_inclusive (db : DB) (oid : Int)
    (min_lat min_lon max_lat max_lon : ℚ) :
    organisations_repository.get_locations_by_organisation_id oid
        (some (min_lat, min_lon, max_lat, max_lon)) db =
      (db.locations.filter (fun l =>
          l.organisation_id == oid
            && decide (min_lat ≤ l.latitude) && decide (l.latitude ≤ max_lat)
            && decide (min_lon ≤ l.longitude) && decide (l.longitude ≤ max_lon))).map
        (fun l => ⟨l.location_name, l.longitude, l.latitude⟩) := by
  unfold organisations_repository.get_locations_by_organisation_id
  rw [organisations_repository.locationsQuery_some_run]

/-- Claim C10: a bounding box with `min_lat > max_lat` or `min_lon > max_lon`
makes the four inclusive inequalities jointly unsatisfiable, so
`get_locations_by_organisation_id` returns the empty sequence whatever is
stored. -/
theorem degenerate_bounding_box_empty (db : DB) (oid : Int)
    (min_lat min_lon max_lat max_lon : ℚ)
    (h : min_lat > max_lat ∨ min_lon > max_lon) :
    organisations_repository.get_locations_by_organisation_id oid
        (some (min_lat, min_lon, max_lat, max_lon)) db = [] := by
  unfold organisations_repository.get_locations_by_organisation_id
  rw [organisations_repository.locationsQuery_some_run]
  have hnil : db.locations.filter (fun l =>
      l.organisation_id == oid
        && decide (min_lat ≤ l.latitude) && decide (l.latitude ≤ max_lat)
        && decide (min_lon ≤ l.longitude) && decide (l.longitude ≤ max_lon)) = [] := by
    rw [List.filter_eq_nil_iff]
    intro l _
    simp only [Bool.and_eq_true, decide_eq_true_eq, beq_iff_eq]
    rintro ⟨⟨⟨⟨-, h1⟩, h2⟩, h3⟩, h4⟩
    rcases h with hlat | hlon
    · exact absurd (h1.trans h2) (not_le.mpr hlat)
    · exact absurd (h3.trans h4) (not_le.mpr hlon)
  rw [hnil]
  rfl

/-- Witness for C10 at a concrete store and box with `min_lat > max_lat`. -/
theorem degenerate_bounding_box_empty_witness :
    organisations_repository.get_locations_by_organisation_id 1
        (some (5, 0, 3, 10))
        ⟨[⟨1, "Org"⟩], [⟨1, 1, "Spot", 2, 4⟩], 2, 2⟩ = [] :=
  degenerate_bounding_box_empty _ 1 5 0 3 10 (Or.inl (by norm_num))

namespace organisations_repository

/-- Every row the locations query selects comes from the `location` table and
belongs to the requested organisation, with or without a bounding box. -/
lemma mem_locationsQuery_run (oid : Int) (bb : Option (ℚ × ℚ × ℚ × ℚ))
    (db : DB) (l : Location) (hl : l ∈ (locationsQuery oid bb).run db) :
    l ∈ db.locations ∧ l.organisation_id = oid := by
  rcases bb with _ | ⟨min_lat, min_lon, max_lat, max_lon⟩
  · rw [locationsQuery_none_run, List.mem_filter] at hl
    exact ⟨hl.1, by simpa using hl.2⟩
  · rw [locationsQuery_some_run, List.mem_filter] at hl
    refine ⟨hl.1, ?_⟩
    have h := hl.2
    simp only [Bool.and_eq_true, beq_iff_eq] at h
    exact h.1.1.1.1

/-- When no stored location belongs to the organisation, the repository
returns the empty sequence, with or without a bounding box. -/
lemma get_locations_no_rows (oid : Int) (bb : Option (ℚ × ℚ × ℚ × ℚ))
    (db : DB) (h : ∀ l ∈ db.locations, l.organisation_id ≠ oid) :
    get_locations_by_organisation_id oid bb db = [] := by
  unfold get_locations_by_organisation_id
  rw [List.map_eq_nil_iff, List.eq_nil_iff_forall_not_mem]
  intro l hl
  rcases mem_locationsQuery_run oid bb db l hl with ⟨hmem, horg⟩
  exact h l hmem horg

end organisations_repository

/-- Claim C2: the get-organisation route answers with the 404 error carrying
detail `Organisation not found` exactly when no organisation row has the
requested id; when such a row exists, it returns one. -/
theorem get_organisation_404_iff_absent (db : DB) (oid : Int) :
    (get_organisation oid db = .error (.notFound "Organisation not found") ↔
      ∀ o ∈ db.organisations, o.id ≠ oid) ∧
    ((∃ o ∈ db.organisations, o.id = oid) →
      ∃ o ∈ db.organisations, o.id = oid ∧ get_organisation oid db = .ok o) := by
  rcases hfind : db.organisations.find? (fun o => o.id == oid) with _ | o
  · have habs : ∀ o ∈ db.organisations, o.id ≠ oid := by
      rw [List.find?_eq_none] at hfind
      intro o ho
      simpa using hfind o ho
    have herr : get_organisation oid db = .error (.notFound "Organisation not found") := by
      unfold get_organisation organisations_repository.get_organisation_by_id
      rw [hfind]
    refine ⟨⟨fun _ => habs, fun _ => herr⟩, ?_⟩
    rintro ⟨o, ho, hid⟩
    exact absurd hid (habs o ho)
  · have ho : o ∈ db.organisations := List.mem_of_find?_eq_some hfind
    have hid : o.id = oid := by simpa using List.find?_some hfind
    have hok : get_organisation oid db = .ok o := by
      unfold get_organisation organisations_repository.get_organisation_by_id
      rw [hfind]
    constructor
    · constructor
      · intro h
        rw [hok] at h
        exact Except.noConfusion h
      · intro h
        exact absurd hid (h o ho)
    · intro _
      exact ⟨o, ho, hid, hok⟩

/-- Witness for C2: with only the organisation generated by one create stored,
the unused id 99999 yields the 404 with the fixed detail. -/
theorem get_organisation_404_iff_absent_witness :
    get_organisation 99999 (create_organisation_route "Alpha" emptyDB).1 =
      .error (.notFound "Organisation not found") :=
  (get_organisation_404_iff_absent (create_organisation_route "Alpha" emptyDB).1
      99999).1.mpr (by decide)

/-- Counterexample to C3 as stated: `create_location` performs no existence
check, so a location row can carry organisation id 42 while no organisation
row has id 42 — and then the route returns that row, not the empty
sequence. -/
theorem locations_route_unknown_org_nonempty :
    ((create_location_route 42 "Somewhere" 10 20 emptyDB).1).organisations = []
      ∧ get_organisation_locations 42 none
          (create_location_route 42 "Somewhere" 10 20 emptyDB).1 ≠ .ok [] := by
  constructor
  · rfl
  · decide

/-- Claim C3 (amended): the locations route never raises a 404 for any id;
and whenever no stored location row carries the requested organisation id —
in particular, under the referential-integrity invariant, whenever the
organisation does not exist — a request whose bounding box passes validation
(or has none) succeeds with the empty sequence. -/
theorem locations_route_never_404_and_empty (db : DB) (oid : Int)
    (bb : Option (ℚ × ℚ × ℚ × ℚ)) :
    (∀ detail, get_organisation_locations oid bb db ≠ .error (.notFound detail)) ∧
    (boundingBoxAccepted bb = true →
      (∀ l ∈ db.locations, l.organisation_id ≠ oid) →
      get_organisation_locations oid bb db = .ok []) := by
  rcases bb with _ | t
  · refine ⟨fun detail h => ?_, fun _ hnone => ?_⟩
    · simp only [get_organisation_locations] at h
      exact Except.noConfusion h
    · simp only [get_organisation_locations,
        organisations_repository.get_locations_no_rows _ _ _ hnone]
  · rcases hp : parseBoundingBox t with _ | ⟨a, b, c, d⟩
    · refine ⟨fun detail h => ?_, fun hacc _ => ?_⟩
      · simp only [get_organisation_locations, hp] at h
        exact ApiError.noConfusion (Except.error.inj h)
      · simp [boundingBoxAccepted, hp] at hacc
    · refine ⟨fun detail h => ?_, fun _ hnone => ?_⟩
      · simp only [get_organisation_locations, hp] at h
        exact Except.noConfusion h
      · simp only [get_organisation_locations, hp,
          organisations_repository.get_locations_no_rows _ _ _ hnone]

/-- Witness for C3 (amended): a store holding one location of organisation 1;
requesting organisation 99999 with no bounding box succeeds with `[]`. -/
theorem locations_route_never_404_and_empty_witness :
    get_organisation_locations 99999 none
        (create_location_route 1 "Hq" 3 4 emptyDB).1 = .ok [] :=
  (locations_route_never_404_and_empty (create_location_route 1 "Hq" 3 4 emptyDB).1
      99999 none).2 (by decide) (by decide)

/-- Counterexample to C4 as stated: the route annotation restricts the
bounding box to integers, so the non-integer tuple
`(10.5, 10, 25, 25)` is rejected by validation instead of being used to
filter. -/
theorem locations_route_rejects_fractional_box :
    get_organisation_locations 7 (some (tenPointFive, 10, 25, 25))
        (create_location_route 7 "Depot" 10 11 emptyDB).1 ≠
      .ok (organisations_repository.get_locations_by_organisation_id 7
            (some (tenPointFive, 10, 25, 25))
            (create_location_route 7 "Depot" 10 11 emptyDB).1) := by
  decide

/-- Claim C4 (amended): the locations route accepts an optional bounding box
of four integers `(min_lat, min_lon, max_lat, max_lon)`; for every integer
4-tuple supplied it filters by exactly those values (non-integer components
fail validation). -/
theorem locations_route_integer_box_passthrough (db : DB) (oid : Int)
    (a b c d : Int) :
    get_organisation_locations oid (some ((a : ℚ), (b : ℚ), (c : ℚ), (d : ℚ))) db =
      .ok (organisations_repository.get_locations_by_organisation_id oid
            (some ((a : ℚ), (b : ℚ), (c : ℚ), (d : ℚ))) db) := by
  unfold get_organisation_locations parseBoundingBox coerceQueryInt
  simp [Rat.den_intCast, Rat.num_intCast]

/-- The table produced by a sequence of creates: the prior rows followed by
one fresh row per name, with consecutive generated ids. -/
lemma createOrganisations_organisations (names : List String) (db : DB) :
    (createOrganisations names db).organisations
      = db.organisations ++ orgsFrom db.nextOrganisationId names := by
  induction names generalizing db with
  | nil => simp [createOrganisations, orgsFrom]
  | cons n ns ih =>
      have hstep : createOrganisations (n :: ns) db
          = createOrganisations ns
              (organisations_repository.create_organisation n db).1 := rfl
      rw [hstep, ih]
      simp [organisations_repository.create_organisation, orgsFrom]

/-- The generated rows carry exactly the requested names, in order. -/
lemma orgsFrom_map_name (i : Int) (ns : List String) :
    (orgsFrom i ns).map Organisation.name = ns := by
  induction ns generalizing i with
  | nil => rfl
  | cons n ns ih => simp [orgsFrom, ih]

/-- One generated row per name. -/
lemma orgsFrom_length (i : Int) (ns : List String) :
    (orgsFrom i ns).length = ns.length := by
  induction ns generalizing i with
  | nil => rfl
  | cons n ns ih => simp [orgsFrom, ih]

/-- Every id generated from `i` onwards is at least `i`. -/
lemma orgsFrom_id_lower (i : Int) (ns : List String) :
    ∀ o ∈ orgsFrom i ns, i ≤ o.id := by
  induction ns generalizing i with
  | nil => intro o ho; simp [orgsFrom] at ho
  | cons n ns ih =>
      intro o ho
      simp only [orgsFrom, List.mem_cons] at ho
      rcases ho with h | h
      · rw [h]
      · have := ih (i + 1) o h
        omega

/-- Consecutively generated ids are pairwise distinct. -/
lemma orgsFrom_ids_nodup (i : Int) (ns : List String) :
    ((orgsFrom i ns).map Organisation.id).Nodup := by
  induction ns generalizing i with
  | nil => simp [orgsFrom]
  | cons n ns ih =>
      simp only [orgsFrom, List.map_cons, List.nodup_cons]
      refine ⟨?_, ih (i + 1)⟩
      intro hmem
      rcases List.mem_map.mp hmem with ⟨o, ho, hid⟩
      have := orgsFrom_id_lower (i + 1) ns o ho
      have hid2 : o.id = i := hid
      omega

/-- Claim C5: creating organisations named `N1..Nk` from the empty store and
then listing yields exactly `k` organisations whose name sequence is
`N1..Nk` and whose generated ids are pairwise distinct; in particular two
creates with the same name give two rows with two distinct ids. -/
theorem create_then_list_organisations (names : List String) :
    (organisations_repository.get_organisations
        (createOrganisations names emptyDB)).length = names.length
      ∧ (organisations_repository.get_organisations
          (createOrganisations names emptyDB)).map Organisation.name = names
      ∧ ((organisations_repository.get_organisations
          (createOrganisations names emptyDB)).map Organisation.id).Nodup := by
  unfold organisations_repository.get_organisations
  rw [createOrganisations_organisations]
  refine ⟨?_, ?_, ?_⟩
  · simp [emptyDB, orgsFrom_length]
  · simp [emptyDB, orgsFrom_map_name]
  · simp [emptyDB, orgsFrom_ids_nodup]

/-- Claim C6: `create_location` returns its four inputs unchanged, and a
subsequent locations query for that organisation (no bounding box) includes
the three-field projection of the created row. -/
theorem create_location_roundtrip (db : DB) (oid : Int) (nm : String)
    (lon lat : ℚ) :
    (organisations_repository.create_location oid nm lon lat db).2.organisation_id = oid
      ∧ (organisations_repository.create_location oid nm lon lat db).2.location_name = nm
      ∧ (organisations_repository.create_location oid nm lon lat db).2.longitude = lon
      ∧ (organisations_repository.create_location oid nm lon lat db).2.latitude = lat
      ∧ (⟨nm, lon, lat⟩ : LocationOut) ∈
          organisations_repository.get_locations_by_organisation_id oid none
            (organisations_repository.create_location oid nm lon lat db).1 := by
  refine ⟨rfl, rfl, rfl, rfl, ?_⟩
  unfold organisations_repository.get_locations_by_organisation_id
  rw [organisations_repository.locationsQuery_none_run, List.mem_map]
  refine ⟨⟨db.nextLocationId, oid, nm, lon, lat⟩, ?_, rfl⟩
  rw [List.mem_filter]
  refine ⟨?_, by simp⟩
  simp [organisations_repository.create_location]

/-- Claim C7: every element the repository returns is exactly the three-field
projection (name, longitude, latitude) of some stored location row of the
requested organisation; the row's id and organisation id are not among the
returned fields. -/
theorem locations_projection_shape (db : DB) (oid : Int)
    (bb : Option (ℚ × ℚ × ℚ × ℚ)) (x : LocationOut)
    (hx : x ∈ organisations_repository.get_locations_by_organisation_id oid bb db) :
    ∃ l, l ∈ db.locations ∧ l.organisation_id = oid
      ∧ x = ⟨l.location_name, l.longitude, l.latitude⟩ := by
  unfold organisations_repository.get_locations_by_organisation_id at hx
  rcases List.mem_map.mp hx with ⟨l, hl, hproj⟩
  rcases organisations_repository.mem_locationsQuery_run oid bb db l hl with ⟨hmem, horg⟩
  exact ⟨l, hmem, horg, hproj.symm⟩

/-- Witness for C7 at a store holding the one location created for
organisation 3. -/
theorem locations_projection_shape_witness :
    ∃ l, l ∈ ((create_location_route 3 "Port" 4 5 emptyDB).1).locations
      ∧ l.organisation_id = 3
      ∧ (⟨"Port", 4, 5⟩ : LocationOut) = ⟨l.location_name, l.longitude, l.latitude⟩ :=
  locations_projection_shape (create_location_route 3 "Port" 4 5 emptyDB).1 3 none
    ⟨"Port", 4, 5⟩ (by decide)

/-- Claim C8: a location row belonging to organisation `A` is never among the
rows the locations query selects for a different organisation `B`, with or
without a bounding box. -/
theorem locations_isolated_by_organisation (db : DB) (A B : Int)
    (bb : Option (ℚ × ℚ × ℚ × ℚ)) (l : Location)
    (hA : l.organisation_id = A) (hAB : A ≠ B) :
    l ∉ (organisations_repository.locationsQuery B bb).run db := by
  intro hl
  rcases organisations_repository.mem_locationsQuery_run B bb db l hl with ⟨-, horg⟩
  exact hAB (hA.symm.trans horg)

/-- Witness for C8: the sole stored location belongs to organisation 1 and is
not selected for organisation 2. -/
theorem locations_isolated_by_organisation_witness :
    (⟨1, 1, "Hq", 0, 0⟩ : Location) ∉
      (organisations_repository.locationsQuery 2 none).run
        ⟨[], [⟨1, 1, "Hq", 0, 0⟩], 1, 2⟩ :=
  locations_isolated_by_organisation ⟨[], [⟨1, 1, "Hq", 0, 0⟩], 1, 2⟩ 1 2 none
    ⟨1, 1, "Hq", 0, 0⟩ rfl (by decide)

/-- Claim C9: `create_location` inserts the row and returns it for any
organisation id, including one matching no stored organisation; the route is
a direct pass-through whose result type has no error case, so no not-found
error can arise on this path. -/
theorem create_location_no_existence_check (db : DB) (oid : Int) (nm : String)
    (lon lat : ℚ) (_h : ∀ o ∈ db.organisations, o.id ≠ oid) :
    (create_location_route oid nm lon lat db).2.organisation_id = oid
      ∧ (create_location_route oid nm lon lat db).2
          ∈ (create_location_route oid nm lon lat db).1.locations := by
  refine ⟨rfl, ?_⟩
  simp [create_location_route, organisations_repository.create_location]

/-- Witness for C9: organisation id 42 references no row of the empty store,
and the insertion still happens. -/
theorem create_location_no_existence_check_witness :
    (create_location_route 42 "Nowhere" 1 2 emptyDB).2.organisation_id = 42
      ∧ (create_location_route 42 "Nowhere" 1 2 emptyDB).2
          ∈ (create_location_route 42 "Nowhere" 1 2 emptyDB).1.locations :=
  create_location_no_existence_check emptyDB 42 "Nowhere" 1 2 (by decide)
